import Mathlib

/-!
Verification of the interactive multi-stage selector of ssmssh (src/main.go).

The Go source is shallowly embedded: Go strings are modelled as lists of
characters (`Str`), the Bubble Tea model struct as the structure `model`,
the message union handled by `model.Update` as the inductive `Msg`, and the
commands `model.Update` can return (`tea.Quit`, `regionsCmd`, `instancesCmd`,
`previewTagsCmd`, `spinnerTick`) as the inductive `Cmd`.  `update` below is a
line-by-line translation of `model.Update` (src/main.go lines 278-500); the
Go early-return control flow is threaded through `Sum` values (`.inl` is an
early `return`, `.inr` continues to the next block of the function).

External effects (reading AWS credentials, running the aws CLI, real timers)
are outside the embedding: their outcomes enter the state machine only as
`Msg` values, exactly as they do in the source, where the dispatched
commands deliver anonymous result structs back to `Update`.

Go slice indexing `xs[i]` is modelled as `xs.getD i.toNat []`; under the
cursor invariant proved below the index is always in range on the paths
where the source indexes, so the default is never consulted there.
-/

namespace Ssmssh

/-- Go strings are modelled as lists of characters. -/
abbrev Str := List Char

/-- Models strings.ToLower from the Go standard library, restricted to the
ASCII case folding performed by Lean's Char.toLower (all inputs reaching
filterList in this program - profile names, region names, instance display
strings - are ASCII). -/
def toLowerStr (s : Str) : Str := s.map Char.toLower

/-- Models strings.Contains s sub from the Go standard library: true exactly
when sub occurs as a contiguous substring of s. -/
def strContains (s sub : Str) : Bool :=
  match s with
  | [] => sub.isEmpty
  | c :: rest => sub.isPrefixOf (c :: rest) || strContains rest sub

/-- Translation of filterList (src/main.go lines 509-521). -/
def filterList (list : List Str) (filter : Str) : List Str :=
  if filter = [] then list
  else
    let f := toLowerStr filter
    list.filter (fun item => strContains (toLowerStr item) f)

/-- Translation of the Tag struct (src/main.go lines 31-34). -/
structure Tag where
  key : Str
  value : Str
deriving DecidableEq

/-- Translation of the state enum (src/main.go lines 36-43). -/
inductive state where
  | stateProfile
  | stateRegion
  | stateInstance
  | stateDone
deriving DecidableEq

/-- Translation of the model struct (src/main.go lines 45-64).  The Go error
field is modelled as an optional error-message string (none = nil). -/
structure model where
  profiles : List Str
  regions : List Str
  instances : List Str
  selectedProfile : Str
  selectedRegion : Str
  selectedInstance : Str
  cursor : Int
  err : Option Str
  step : state
  filter : Str
  filteredProfiles : List Str
  filteredRegions : List Str
  filteredInstances : List Str
  loading : Bool
  spinnerFrame : Nat
  previewTags : List Tag
  previewLoading : Bool
  previewInstanceId : Str
deriving DecidableEq

/-- Translation of spinnerFrames (src/main.go line 17). -/
def spinnerFrames : List Str :=
  [['⠋'], ['⠙'], ['⠹'], ['⠸'], ['⠼'], ['⠴'], ['⠦'], ['⠧'], ['⠇'], ['⠏']]

/-- Commands model.Update can return: tea.Quit, the three asynchronous fetch
commands (src/main.go lines 176-260) and spinnerTick (lines 502-507). -/
inductive Cmd where
  | quit
  | regionsCmd (profile : Str)
  | instancesCmd (profile region : Str)
  | previewTagsCmd (profile region instanceId : Str)
  | spinnerTick
deriving DecidableEq

/-- The message union dispatched by the type switch in model.Update
(src/main.go lines 279-494): a key message (carried as the result of
msg.String()), the two anonymous list-result structs, the anonymous
tag-result struct, and the spinner tick (an empty struct, caught by the
final `case tea.Msg` arm). -/
inductive Msg where
  | key (s : Str)
  | regionsResult (regions : List Str) (err : Option Str)
  | instancesResult (instances : List Str) (err : Option Str)
  | tagsResult (tags : List Tag) (instanceId : Str) (err : Option Str)
  | tick
deriving DecidableEq

/-- Key strings as produced by tea.KeyMsg.String() in the source. -/
def upKey : Str := ['u', 'p']

def downKey : Str := ['d', 'o', 'w', 'n']

def kKey : Str := ['k']

def jKey : Str := ['j']

def enterKey : Str := ['e', 'n', 't', 'e', 'r']

def backspaceKey : Str := ['b', 'a', 'c', 'k', 's', 'p', 'a', 'c', 'e']

def escKey : Str := ['e', 's', 'c']

def cmdQKey : Str := ['c', 'm', 'd', '+', 'q']

def cmdCKey : Str := ['c', 'm', 'd', '+', 'c']

/-- The quit gesture keys of the first switch in the key handler
(src/main.go lines 283-286). -/
def quitKeys : List Str := [cmdQKey, cmdCKey, escKey]

/-- Error message of the empty-profile confirm branch (src/main.go line 375). -/
def noProfilesErr : Str := "no AWS profiles found".toList

/-- Error message of the empty-region confirm branch (src/main.go line 383). -/
def noRegionsErr : Str := "no regions found".toList

/-- Error message of the empty-instance confirm branch (src/main.go line 391). -/
def noInstancesErr : Str := "no instances found".toList

/-- Models strings.Split(s, " ")[0]: the token before the first space. -/
def splitFirst (s : Str) : Str := s.takeWhile (fun c => c != ' ')

/-- Models the printable-rune test of the default key case
(src/main.go line 404): len(s) == 1 && s[0] >= 32 && s[0] <= 126. -/
def isPrintableKey (s : Str) : Bool :=
  match s with
  | [c] => decide (32 ≤ c.toNat) && decide (c.toNat ≤ 126)
  | _ => false

/-- Models the trailing `if m.loading { return m, spinnerTick() }` at the end
of model.Update (src/main.go lines 496-499), reached whenever the type
switch falls through without an early return. -/
def finishUpdate (m : model) : model × Option Cmd :=
  if m.loading then (m, some Cmd.spinnerTick) else (m, none)

/-- Models `if m.cursor >= len { m.cursor = len - 1 }` of the cursor
re-clamping blocks (e.g. src/main.go lines 415-417). -/
def clampHigh (c : Int) (n : Nat) : Int :=
  if c ≥ (n : Int) then (n : Int) - 1 else c

/-- Models `if m.cursor < 0 { m.cursor = 0 }` of the cursor re-clamping
blocks (e.g. src/main.go lines 418-420). -/
def clampLow (c : Int) : Int := if c < 0 then 0 else c

/-- The two sequential clamping ifs of the non-empty branch of a re-clamping
block (src/main.go lines 415-420). -/
def clampPos (c : Int) (n : Nat) : Int := clampLow (clampHigh c n)

/-- A full re-clamping block including the empty case
(src/main.go lines 412-421). -/
def clampCursor (c : Int) (n : Nat) : Int :=
  if n = 0 then 0 else clampPos c n

/-- Translation of the `case "up"` block (src/main.go lines 293-310):
`.inl` is the early `return m, previewTagsCmd(...)` of the instance arm. -/
def moveUp (m : model) : Sum (model × Option Cmd) model :=
  match m.step with
  | .stateProfile => .inr (if m.cursor > 0 then { m with cursor := m.cursor - 1 } else m)
  | .stateRegion => .inr (if m.cursor > 0 then { m with cursor := m.cursor - 1 } else m)
  | .stateInstance =>
    if m.cursor > 0 then
      let c := m.cursor - 1
      let pid := splitFirst (m.filteredInstances.getD c.toNat [])
      .inl ({ m with cursor := c, previewLoading := true, previewInstanceId := pid },
        some (Cmd.previewTagsCmd m.selectedProfile m.selectedRegion pid))
    else .inr m
  | .stateDone => .inr m

/-- Translation of the `case "down"` block (src/main.go lines 311-328). -/
def moveDown (m : model) : Sum (model × Option Cmd) model :=
  match m.step with
  | .stateProfile =>
    .inr (if m.cursor < (m.filteredProfiles.length : Int) - 1
      then { m with cursor := m.cursor + 1 } else m)
  | .stateRegion =>
    .inr (if m.cursor < (m.filteredRegions.length : Int) - 1
      then { m with cursor := m.cursor + 1 } else m)
  | .stateInstance =>
    if m.cursor < (m.filteredInstances.length : Int) - 1 then
      let c := m.cursor + 1
      let pid := splitFirst (m.filteredInstances.getD c.toNat [])
      .inl ({ m with cursor := c, previewLoading := true, previewInstanceId := pid },
        some (Cmd.previewTagsCmd m.selectedProfile m.selectedRegion pid))
    else .inr m
  | .stateDone => .inr m

/-- Translation of the first key switch after the loading gate, handling the
arrow keys (src/main.go lines 292-329). -/
def navUpDown (m : model) (s : Str) : Sum (model × Option Cmd) model :=
  if s = upKey then moveUp m
  else if s = downKey then moveDown m
  else .inr m

/-- Translation of the `if m.filter == ""` block handling k and j
(src/main.go lines 330-369); its bodies duplicate the arrow-key blocks
verbatim in the source, so they are shared here. -/
def navLetters (m : model) (s : Str) : Sum (model × Option Cmd) model :=
  if m.filter = [] then
    if s = kKey then moveUp m
    else if s = jKey then moveDown m
    else .inr m
  else .inr m

/-- Translation of the `case "enter"` block (src/main.go lines 371-397).
The stateDone arm falls through in the source (no case matches), hence
`.inr m`. -/
def handleEnter (m : model) : Sum (model × Option Cmd) model :=
  match m.step with
  | .stateProfile =>
    if m.filteredProfiles = [] then
      .inl ({ m with err := some noProfilesErr }, some Cmd.quit)
    else
      let p := m.filteredProfiles.getD m.cursor.toNat []
      .inl ({ m with selectedProfile := p, loading := true }, some (Cmd.regionsCmd p))
  | .stateRegion =>
    if m.filteredRegions = [] then
      .inl ({ m with err := some noRegionsErr }, some Cmd.quit)
    else
      let r := m.filteredRegions.getD m.cursor.toNat []
      .inl ({ m with selectedRegion := r, loading := true },
        some (Cmd.instancesCmd m.selectedProfile r))
  | .stateInstance =>
    if m.filteredInstances = [] then
      .inl ({ m with err := some noInstancesErr }, some Cmd.quit)
    else
      .inl ({ m with
        selectedInstance := splitFirst (m.filteredInstances.getD m.cursor.toNat [])
        step := .stateDone }, some Cmd.quit)
  | .stateDone => .inr m

/-- Translation of the enter/backspace/default switch
(src/main.go lines 370-407). -/
def editFilter (m : model) (s : Str) : Sum (model × Option Cmd) model :=
  if s = enterKey then handleEnter m
  else if s = backspaceKey then
    .inr (if m.filter.length > 0 then { m with filter := m.filter.dropLast } else m)
  else .inr (if isPrintableKey s then { m with filter := m.filter ++ s } else m)

/-- Translation of the filtered-list update switch
(src/main.go lines 408-450), including the preview re-dispatch and early
return of the non-empty instance arm. -/
def refilter (m : model) : Sum (model × Option Cmd) model :=
  match m.step with
  | .stateProfile =>
    let fl := filterList m.profiles m.filter
    .inr { m with filteredProfiles := fl, cursor := clampCursor m.cursor fl.length }
  | .stateRegion =>
    let fl := filterList m.regions m.filter
    .inr { m with filteredRegions := fl, cursor := clampCursor m.cursor fl.length }
  | .stateInstance =>
    let fl := filterList m.instances m.filter
    if fl = [] then .inr { m with filteredInstances := fl, cursor := 0 }
    else
      let c := clampPos m.cursor fl.length
      let pid := splitFirst (fl.getD c.toNat [])
      .inl ({ m with
          filteredInstances := fl
          cursor := c
          previewLoading := true
          previewInstanceId := pid },
        some (Cmd.previewTagsCmd m.selectedProfile m.selectedRegion pid))
  | .stateDone => .inr m

/-- Sequencing of the blocks of the key handler: an early return (`.inl`)
short-circuits the rest, mirroring Go control flow. -/
def andThen (x : Sum (model × Option Cmd) model)
    (f : model → Sum (model × Option Cmd) model) : Sum (model × Option Cmd) model :=
  match x with
  | .inl r => .inl r
  | .inr m => f m

/-- The four sequential blocks of the key handler after the quit and loading
gates (src/main.go lines 291-450). -/
def keyPipeline (m : model) (s : Str) : Sum (model × Option Cmd) model :=
  andThen (andThen (andThen (navUpDown m s) (fun m1 => navLetters m1 s))
    (fun m2 => editFilter m2 s)) refilter

/-- Translation of the `case tea.KeyMsg` arm of model.Update
(src/main.go lines 280-450 plus the trailing lines 496-499). -/
def updateKey (m : model) (s : Str) : model × Option Cmd :=
  if s ∈ quitKeys then (m, some Cmd.quit)
  else if m.loading then (m, none)
  else
    match keyPipeline m s with
    | .inl r => r
    | .inr m4 => finishUpdate m4

/-- Translation of model.Update (src/main.go lines 278-500). -/
def update (m : model) (msg : Msg) : model × Option Cmd :=
  match msg with
  | .key s => updateKey m s
  | .regionsResult rs e =>
    let m1 := { m with loading := false }
    match e with
    | some errMsg => ({ m1 with err := some errMsg }, none)
    | none =>
      finishUpdate { m1 with
        regions := rs
        filteredRegions := rs
        cursor := 0
        filter := []
        step := .stateRegion }
  | .instancesResult l e =>
    let m1 := { m with loading := false }
    match e with
    | some errMsg => ({ m1 with err := some errMsg }, none)
    | none =>
      finishUpdate { m1 with
        instances := l
        filteredInstances := l
        cursor := 0
        filter := []
        step := .stateInstance }
  | .tagsResult tags instId _ =>
    finishUpdate (if instId = m.previewInstanceId then
      { m with previewTags := tags, previewLoading := false } else m)
  | .tick =>
    if m.loading then
      ({ m with spinnerFrame := (m.spinnerFrame + 1) % spinnerFrames.length },
        some Cmd.spinnerTick)
    else finishUpdate m

/-- Translation of initialModel (src/main.go lines 262-272), parameterised by
the outcome of the external getProfiles call; unnamed Go struct fields start
at their zero values. -/
def initialModel (profiles : List Str) (err : Option Str) : model where
  profiles := profiles
  regions := []
  instances := []
  selectedProfile := []
  selectedRegion := []
  selectedInstance := []
  cursor := 0
  err := err
  step := .stateProfile
  filter := []
  filteredProfiles := profiles
  filteredRegions := []
  filteredInstances := []
  loading := false
  spinnerFrame := 0
  previewTags := []
  previewLoading := false
  previewInstanceId := []

/-- Models the exit decision of main after the event loop ends
(src/main.go lines 652-655): exit code 1 unless err is nil and the final
step is stateDone. -/
def runExitCode (final : model) : Nat :=
  if final.err ≠ none ∨ final.step ≠ state.stateDone then 1 else 0

/-- States reachable by the event loop: an initial model (for any outcome of
the synchronous profile load) or the result of handling one more message. -/
inductive Reachable : model → Prop where
  | init (profiles : List Str) (err : Option Str) : Reachable (initialModel profiles err)
  | step (m : model) (msg : Msg) : Reachable m → Reachable (update m msg).1

/-- The cursor bound relative to one filtered list: cursor 0 when the list is
empty, otherwise strictly inside [0, length). -/
def invFor (c : Int) (l : List Str) : Prop :=
  (l = [] → c = 0) ∧ (l ≠ [] → 0 ≤ c ∧ c < (l.length : Int))

instance instDecidableInvFor (c : Int) (l : List Str) : Decidable (invFor c l) :=
  inferInstanceAs (Decidable ((l = [] → c = 0) ∧ (l ≠ [] → 0 ≤ c ∧ c < (l.length : Int))))

/-- The filtered list of the current stage; stateDone has none. -/
def filteredOfStep (m : model) : List Str :=
  match m.step with
  | .stateProfile => m.filteredProfiles
  | .stateRegion => m.filteredRegions
  | .stateInstance => m.filteredInstances
  | .stateDone => []

/-- The cursor invariant of the navigator: on the three selection stages the
cursor is inside the current filtered list (or 0 when that list is empty);
stateDone has no list and is exempt. -/
def cursorInv (m : model) : Prop :=
  m.step = state.stateDone ∨ invFor m.cursor (filteredOfStep m)

instance instDecidableCursorInv (m : model) : Decidable (cursorInv m) :=
  inferInstanceAs (Decidable (m.step = state.stateDone ∨ invFor m.cursor (filteredOfStep m)))

/-- The cursor invariant lifted to the early-return sums of the key handler. -/
def sumInv : Sum (model × Option Cmd) model → Prop
  | .inl r => cursorInv r.1
  | .inr m => cursorInv m

/-!  Helper lemmas. -/

lemma finishUpdate_fst (m : model) : (finishUpdate m).1 = m := by
  unfold finishUpdate
  split <;> rfl

lemma isPrefixOfTrue_iff (l₁ l₂ : Str) : l₁.isPrefixOf l₂ = true ↔ l₁ <+: l₂ :=
  List.isPrefixOf_iff_prefix

lemma infixOfCons {l₁ l₂ : Str} {a : Char} :
    l₁ <:+: a :: l₂ ↔ l₁ <+: a :: l₂ ∨ l₁ <:+: l₂ :=
  List.infix_cons_iff

lemma strContains_iff (s sub : Str) : strContains s sub = true ↔ sub <:+: s := by
  induction s with
  | nil =>
    simp only [strContains, List.isEmpty_iff]
    constructor
    · intro h
      exact h ▸ List.infix_rfl
    · intro h
      exact List.eq_nil_of_infix_nil h
  | cons c rest ih =>
    rw [strContains, Bool.or_eq_true, ih, isPrefixOfTrue_iff]
    exact infixOfCons.symm

/-- C6: filterList with an empty query returns the list unchanged; with a
non-empty query it returns exactly the elements containing the query as a
case-insensitive substring (membership characterised through the lowered
infix relation), as a sublist of the input, hence preserving relative
order.  Determinism, totality and freedom from side effects are inherent:
filterList is a total Lean function. -/
theorem filterList_spec :
    (∀ L : List Str, filterList L [] = L) ∧
    (∀ (L : List Str) (q : Str), q ≠ [] →
      (filterList L q).Sublist L ∧
      (∀ x : Str, x ∈ filterList L q ↔ x ∈ L ∧ toLowerStr q <:+: toLowerStr x)) := by
  refine ⟨fun L => rfl, fun L q hq => ⟨?_, ?_⟩⟩
  · unfold filterList
    rw [if_neg hq]
    exact List.filter_sublist L
  · intro x
    unfold filterList
    rw [if_neg hq]
    simp only [List.mem_filter]
    rw [strContains_iff]

/-- C6 witness: the non-empty-query part of filterList_spec instantiated at a
concrete list and query. -/
theorem filterList_spec_witness :
    ("US-East-1".toList ∈ filterList ["US-East-1".toList, "eu-central-1".toList] ("us".toList) ↔
      "US-East-1".toList ∈ [("US-East-1".toList : Str), "eu-central-1".toList] ∧
        toLowerStr ("us".toList) <:+: toLowerStr ("US-East-1".toList)) :=
  ((filterList_spec.2 ["US-East-1".toList, "eu-central-1".toList] ("us".toList)
    (by decide)).2 ("US-East-1".toList))

/-- C1: the code violates the claim.  In a navigator state at the profile
stage with loading false, an empty filter query and a non-empty filtered
list, pressing j moves the cursor down but then ALSO falls into the
printable-rune default case (src/main.go lines 402-407), appending the
letter to the filter query and re-filtering; here neither profile contains
the letter j, so the filtered list collapses to empty and the cursor is
re-clamped to 0, while the claim requires cursor 1 and an empty query. -/
theorem j_key_enters_filter_query :
    (initialModel ["alpha".toList, "beta".toList] none).loading = false ∧
    (initialModel ["alpha".toList, "beta".toList] none).filter = [] ∧
    (initialModel ["alpha".toList, "beta".toList] none).filteredProfiles ≠ [] ∧
    (update (initialModel ["alpha".toList, "beta".toList] none) (Msg.key jKey)).1.filter =
      ['j'] ∧
    (update (initialModel ["alpha".toList, "beta".toList] none) (Msg.key jKey)).1.cursor = 0 ∧
    (update (initialModel ["alpha".toList, "beta".toList] none)
      (Msg.key jKey)).1.filteredProfiles = [] := by
  decide

/-- C2 counterexample: a region-list result carrying an error (here the
synthetic timeout error) makes the handler return no command at all - in
particular not the quit signal - so handling the message does not signal
loop termination as the claim states. -/
theorem fetch_error_returns_no_command :
    (update { initialModel ["p".toList] none with loading := true }
        (Msg.regionsResult [] (some ("timeout loading regions".toList)))).2 = none ∧
    (none : Option Cmd) ≠ some Cmd.quit := by
  decide

/-- C2 amended: an errored region-list or instance-list result clears
loading, records the error and stays at the current stage, but returns no
command: the loop is not signalled to terminate by this handler; once the
loop later ends (the operator must quit from the error view), the recorded
error forces a non-zero exit. -/
theorem fetch_error_enters_error_state (m : model) (rs l : List Str) (e : Str) :
    update m (Msg.regionsResult rs (some e)) =
      ({ m with loading := false, err := some e }, none) ∧
    update m (Msg.instancesResult l (some e)) =
      ({ m with loading := false, err := some e }, none) ∧
    runExitCode { m with loading := false, err := some e } = 1 := by
  refine ⟨rfl, rfl, ?_⟩
  simp [runExitCode]

/-- C4: a preview tag result leaves the whole state unchanged when its
carried identifier differs from the current previewInstanceId, updates only
previewTags and previewLoading when it matches, and in every case leaves
stage, cursor and the stage-level loading flag untouched.  The statement is
per arbitrary state, so it covers any completion order of any number of
in-flight preview fetches. -/
theorem preview_result_staleness_guard (m : model) (tags : List Tag) (instId : Str)
    (e : Option Str) :
    (update m (Msg.tagsResult tags instId e)).1 =
      (if instId = m.previewInstanceId then
        { m with previewTags := tags, previewLoading := false } else m) ∧
    (update m (Msg.tagsResult tags instId e)).1.step = m.step ∧
    (update m (Msg.tagsResult tags instId e)).1.cursor = m.cursor ∧
    (update m (Msg.tagsResult tags instId e)).1.loading = m.loading := by
  have h1 : (update m (Msg.tagsResult tags instId e)).1 =
      (if instId = m.previewInstanceId then
        { m with previewTags := tags, previewLoading := false } else m) := by
    show (finishUpdate _).1 = _
    rw [finishUpdate_fst]
  refine ⟨h1, ?_, ?_, ?_⟩ <;> rw [h1] <;> split <;> rfl

/-- C5: while the stage-level loading flag is true, every key message other
than the quit gesture leaves the state unchanged and produces no command. -/
theorem loading_gate_ignores_keys (m : model) (s : Str) (hl : m.loading = true)
    (hq : s ∉ quitKeys) : update m (Msg.key s) = (m, none) := by
  show updateKey m s = (m, none)
  unfold updateKey
  rw [if_neg hq, if_pos hl]

/-- C5 witness: the loading gate applied to a concrete loading state and the
j key. -/
theorem loading_gate_ignores_keys_witness :
    update { initialModel [] none with loading := true } (Msg.key jKey) =
      ({ initialModel [] none with loading := true }, none) :=
  loading_gate_ignores_keys { initialModel [] none with loading := true } jKey rfl
    (by decide)

/-- C8: a successful list-fetch result clears loading, installs the list and
its filtered copy, resets cursor and query, and advances the stage: a
region-list result moves any state to stateRegion (in particular
stateProfile to stateRegion), an instance-list result to stateInstance;
no command is produced. -/
theorem list_fetch_success_advances_stage (m : model) (rs l : List Str) :
    update m (Msg.regionsResult rs none) =
      ({ m with
        loading := false
        regions := rs
        filteredRegions := rs
        cursor := 0
        filter := []
        step := state.stateRegion }, none) ∧
    update m (Msg.instancesResult l none) =
      ({ m with
        loading := false
        instances := l
        filteredInstances := l
        cursor := 0
        filter := []
        step := state.stateInstance }, none) :=
  ⟨rfl, rfl⟩

/-- C9 counterexample: a tick received while loading is false does not
advance the spinner frame (the claim demands an unconditional advance by
one modulo the frame count). -/
theorem tick_without_loading_keeps_frame :
    (update (initialModel [] none) Msg.tick).1.spinnerFrame = 0 ∧
    (0 : Nat) ≠ (0 + 1) % spinnerFrames.length := by
  decide

/-- C9 amended: a tick received while loading advances the spinner frame by
one modulo the frame count and re-schedules a tick command; a tick received
while not loading leaves the state unchanged and produces no command.  A
new tick command is produced if and only if loading is still true, so the
tick chain self-terminates once loading ends. -/
theorem tick_advances_iff_loading (m : model) :
    (m.loading = true → update m Msg.tick =
      ({ m with spinnerFrame := (m.spinnerFrame + 1) % spinnerFrames.length },
        some Cmd.spinnerTick)) ∧
    (m.loading = false → update m Msg.tick = (m, none)) ∧
    ((update m Msg.tick).2 = some Cmd.spinnerTick ↔ m.loading = true) := by
  refine ⟨fun h => ?_, fun h => ?_, ?_⟩
  · simp [update, h]
  · simp [update, finishUpdate, h]
  · cases hl : m.loading
    · simp [update, finishUpdate, hl]
    · simp [update, hl]

/-- C9 witness: the amended tick theorem applied to a concrete non-loading
state. -/
theorem tick_advances_iff_loading_witness :
    update (initialModel [] none) Msg.tick = (initialModel [] none, none) :=
  (tick_advances_iff_loading (initialModel [] none)).2.1 rfl

/-- C10: a successful fetch of an empty list still advances to the next
stage, installing the empty list with cursor 0 and empty query and leaving
the error field untouched; pressing enter on that stage then records the
empty-selection error ("no regions found" / "no instances found"), returns
the quit signal, and the resulting final state forces a non-zero exit. -/
theorem empty_fetch_success_then_enter_fails (m : model) :
    ((update m (Msg.regionsResult [] none)).1.step = state.stateRegion ∧
      (update m (Msg.regionsResult [] none)).1.cursor = 0 ∧
      (update m (Msg.regionsResult [] none)).1.filter = [] ∧
      (update m (Msg.regionsResult [] none)).1.filteredRegions = [] ∧
      (update m (Msg.regionsResult [] none)).1.err = m.err ∧
      update (update m (Msg.regionsResult [] none)).1 (Msg.key enterKey) =
        ({ (update m (Msg.regionsResult [] none)).1 with err := some noRegionsErr },
          some Cmd.quit) ∧
      runExitCode (update (update m (Msg.regionsResult [] none)).1
        (Msg.key enterKey)).1 = 1) ∧
    ((update m (Msg.instancesResult [] none)).1.step = state.stateInstance ∧
      (update m (Msg.instancesResult [] none)).1.cursor = 0 ∧
      (update m (Msg.instancesResult [] none)).1.filter = [] ∧
      (update m (Msg.instancesResult [] none)).1.filteredInstances = [] ∧
      (update m (Msg.instancesResult [] none)).1.err = m.err ∧
      update (update m (Msg.instancesResult [] none)).1 (Msg.key enterKey) =
        ({ (update m (Msg.instancesResult [] none)).1 with err := some noInstancesErr },
          some Cmd.quit) ∧
      runExitCode (update (update m (Msg.instancesResult [] none)).1
        (Msg.key enterKey)).1 = 1) := by
  exact ⟨⟨rfl, rfl, rfl, rfl, rfl, rfl, rfl⟩, rfl, rfl, rfl, rfl, rfl, rfl, rfl⟩

lemma navLetters_of_ne (m : model) (s : Str) (hk : s ≠ kKey) (hj : s ≠ jKey) :
    navLetters m s = Sum.inr m := by
  unfold navLetters
  by_cases hf : m.filter = []
  · rw [if_pos hf, if_neg hk, if_neg hj]
  · rw [if_neg hf]

lemma updateKey_enter_inl (m : model) (r : model × Option Cmd) (hl : m.loading = false)
    (he : handleEnter m = Sum.inl r) : updateKey m enterKey = r := by
  unfold updateKey
  rw [if_neg (by decide), if_neg (by simp [hl])]
  have hnav : navUpDown m enterKey = Sum.inr m := by
    unfold navUpDown
    rw [if_neg (by decide), if_neg (by decide)]
  have hedit : editFilter m enterKey = handleEnter m := by
    unfold editFilter
    rw [if_pos rfl]
  have hpipe : keyPipeline m enterKey = Sum.inl r := by
    unfold keyPipeline
    rw [hnav]
    simp only [andThen]
    rw [navLetters_of_ne m enterKey (by decide) (by decide)]
    simp only [andThen]
    rw [hedit, he]
  rw [hpipe]

lemma handleEnter_instance_empty (m : model) (h1 : m.step = state.stateInstance)
    (he : m.filteredInstances = []) :
    handleEnter m = Sum.inl ({ m with err := some noInstancesErr }, some Cmd.quit) := by
  unfold handleEnter
  split <;> rename_i hstep <;> rw [h1] at hstep
  · exact absurd hstep (by decide)
  · exact absurd hstep (by decide)
  · rw [if_pos he]
  · exact absurd hstep (by decide)

lemma handleEnter_instance_nonempty (m : model) (h1 : m.step = state.stateInstance)
    (he : m.filteredInstances ≠ []) :
    handleEnter m = Sum.inl ({ m with
      selectedInstance := splitFirst (m.filteredInstances.getD m.cursor.toNat [])
      step := .stateDone }, some Cmd.quit) := by
  unfold handleEnter
  split <;> rename_i hstep <;> rw [h1] at hstep
  · exact absurd hstep (by decide)
  · exact absurd hstep (by decide)
  · rw [if_neg he]
  · exact absurd hstep (by decide)

/-- C7: pressing enter on the instance stage with loading false either fails
with the "no instances found" error and the quit signal when the filtered
list is empty, or records as final selection the token before the first
space of the highlighted entry, moves to stateDone and returns the quit
signal; extraction yields "i-123" both from "i-123 (web-server)" and from
"i-123"; in the error case the final state forces a non-zero exit. -/
theorem enter_on_instance_selects_id (m : model) (h1 : m.step = state.stateInstance)
    (h2 : m.loading = false) :
    (m.filteredInstances = [] →
      update m (Msg.key enterKey) = ({ m with err := some noInstancesErr }, some Cmd.quit) ∧
      runExitCode { m with err := some noInstancesErr } = 1) ∧
    (m.filteredInstances ≠ [] →
      update m (Msg.key enterKey) =
        ({ m with
          selectedInstance := splitFirst (m.filteredInstances.getD m.cursor.toNat [])
          step := state.stateDone }, some Cmd.quit)) ∧
    splitFirst ("i-123 (web-server)".toList) = "i-123".toList ∧
    splitFirst ("i-123".toList) = "i-123".toList := by
  refine ⟨fun he => ⟨?_, by simp [runExitCode]⟩, fun he => ?_, by decide, by decide⟩
  · exact updateKey_enter_inl m _ h2 (handleEnter_instance_empty m h1 he)
  · exact updateKey_enter_inl m _ h2 (handleEnter_instance_nonempty m h1 he)

/-- C7 witness: enter on a concrete instance-stage state with two entries
and the cursor on the second. -/
theorem enter_on_instance_selects_id_witness :
    update { initialModel [] none with
        step := state.stateInstance
        instances := ["i-123 (web)".toList, "i-456".toList]
        filteredInstances := ["i-123 (web)".toList, "i-456".toList]
        cursor := 1 } (Msg.key enterKey) =
      ({ { initialModel [] none with
          step := state.stateInstance
          instances := ["i-123 (web)".toList, "i-456".toList]
          filteredInstances := ["i-123 (web)".toList, "i-456".toList]
          cursor := 1 } with
        selectedInstance := splitFirst ((["i-123 (web)".toList,
          "i-456".toList] : List Str).getD 1 [])
        step := state.stateDone }, some Cmd.quit) :=
  ((enter_on_instance_selects_id _ rfl rfl).2.1 (by decide))

/-!  Lemmas for the cursor invariant (C3). -/

lemma invFor_zero (l : List Str) : invFor 0 l := by
  refine ⟨fun _ => rfl, fun hl => ⟨le_refl 0, ?_⟩⟩
  have : 0 < l.length := List.length_pos.mpr hl
  omega

lemma invFor_dec (c : Int) (l : List Str) (h : invFor c l) (hc : 0 < c) :
    invFor (c - 1) l := by
  obtain ⟨h1, h2⟩ := h
  by_cases hl : l = []
  · exact absurd (h1 hl) (by omega)
  · obtain ⟨ha, hb⟩ := h2 hl
    exact ⟨fun hl2 => absurd hl2 hl, fun _ => ⟨by omega, by omega⟩⟩

lemma invFor_inc (c : Int) (l : List Str) (h : invFor c l)
    (hc : c < (l.length : Int) - 1) : invFor (c + 1) l := by
  obtain ⟨h1, h2⟩ := h
  by_cases hl : l = []
  · have hz := h1 hl
    rw [hl] at hc
    simp at hc
    omega
  · obtain ⟨ha, hb⟩ := h2 hl
    exact ⟨fun hl2 => absurd hl2 hl, fun _ => ⟨by omega, by omega⟩⟩

lemma clampPos_bounds (c : Int) (n : Nat) (h : 0 < n) :
    0 ≤ clampPos c n ∧ clampPos c n < (n : Int) := by
  unfold clampPos clampLow clampHigh
  split <;> split <;> omega

lemma invFor_clampPos (c : Int) (l : List Str) (hl : l ≠ []) :
    invFor (clampPos c l.length) l := by
  have hp := clampPos_bounds c l.length (List.length_pos.mpr hl)
  exact ⟨fun h2 => absurd h2 hl, fun _ => hp⟩

lemma invFor_clampCursor (c : Int) (l : List Str) : invFor (clampCursor c l.length) l := by
  unfold clampCursor
  by_cases hn : l.length = 0
  · rw [if_pos hn]
    exact invFor_zero l
  · rw [if_neg hn]
    exact invFor_clampPos c l (fun h2 => hn (by rw [h2]; rfl))

lemma filteredOfStep_profile (m : model) (h : m.step = state.stateProfile) :
    filteredOfStep m = m.filteredProfiles := by
  unfold filteredOfStep
  rw [h]

lemma filteredOfStep_region (m : model) (h : m.step = state.stateRegion) :
    filteredOfStep m = m.filteredRegions := by
  unfold filteredOfStep
  rw [h]

lemma filteredOfStep_instance (m : model) (h : m.step = state.stateInstance) :
    filteredOfStep m = m.filteredInstances := by
  unfold filteredOfStep
  rw [h]

lemma cursorInv_intro_profile (m : model) (h : m.step = state.stateProfile)
    (hi : invFor m.cursor m.filteredProfiles) : cursorInv m := by
  unfold cursorInv
  right
  rw [filteredOfStep_profile m h]
  exact hi

lemma cursorInv_intro_region (m : model) (h : m.step = state.stateRegion)
    (hi : invFor m.cursor m.filteredRegions) : cursorInv m := by
  unfold cursorInv
  right
  rw [filteredOfStep_region m h]
  exact hi

lemma cursorInv_intro_instance (m : model) (h : m.step = state.stateInstance)
    (hi : invFor m.cursor m.filteredInstances) : cursorInv m := by
  unfold cursorInv
  right
  rw [filteredOfStep_instance m h]
  exact hi

lemma cursorInv_elim_profile (m : model) (h : m.step = state.stateProfile)
    (hc : cursorInv m) : invFor m.cursor m.filteredProfiles := by
  unfold cursorInv at hc
  rcases hc with hd | hi
  · rw [h] at hd
    exact absurd hd (by decide)
  · rwa [filteredOfStep_profile m h] at hi

lemma cursorInv_elim_region (m : model) (h : m.step = state.stateRegion)
    (hc : cursorInv m) : invFor m.cursor m.filteredRegions := by
  unfold cursorInv at hc
  rcases hc with hd | hi
  · rw [h] at hd
    exact absurd hd (by decide)
  · rwa [filteredOfStep_region m h] at hi

lemma cursorInv_elim_instance (m : model) (h : m.step = state.stateInstance)
    (hc : cursorInv m) : invFor m.cursor m.filteredInstances := by
  unfold cursorInv at hc
  rcases hc with hd | hi
  · rw [h] at hd
    exact absurd hd (by decide)
  · rwa [filteredOfStep_instance m h] at hi

lemma moveUp_inv (m : model) (h : cursorInv m) : sumInv (moveUp m) := by
  unfold moveUp
  cases hstep : m.step <;> dsimp only
  · by_cases hc : m.cursor > 0
    · rw [if_pos hc]
      simp only [sumInv]
      refine cursorInv_intro_profile _ ?_ ?_
      · rfl
      · exact invFor_dec _ _ (cursorInv_elim_profile m hstep h) hc
    · rw [if_neg hc]
      exact h
  · by_cases hc : m.cursor > 0
    · rw [if_pos hc]
      simp only [sumInv]
      refine cursorInv_intro_region _ ?_ ?_
      · rfl
      · exact invFor_dec _ _ (cursorInv_elim_region m hstep h) hc
    · rw [if_neg hc]
      exact h
  · by_cases hc : m.cursor > 0
    · rw [if_pos hc]
      simp only [sumInv]
      refine cursorInv_intro_instance _ ?_ ?_
      · rfl
      · exact invFor_dec _ _ (cursorInv_elim_instance m hstep h) hc
    · rw [if_neg hc]
      exact h
  · exact h

lemma moveDown_inv (m : model) (h : cursorInv m) : sumInv (moveDown m) := by
  unfold moveDown
  cases hstep : m.step <;> dsimp only
  · by_cases hc : m.cursor < (m.filteredProfiles.length : Int) - 1
    · rw [if_pos hc]
      simp only [sumInv]
      refine cursorInv_intro_profile _ ?_ ?_
      · rfl
      · exact invFor_inc _ _ (cursorInv_elim_profile m hstep h) hc
    · rw [if_neg hc]
      exact h
  · by_cases hc : m.cursor < (m.filteredRegions.length : Int) - 1
    · rw [if_pos hc]
      simp only [sumInv]
      refine cursorInv_intro_region _ ?_ ?_
      · rfl
      · exact invFor_inc _ _ (cursorInv_elim_region m hstep h) hc
    · rw [if_neg hc]
      exact h
  · by_cases hc : m.cursor < (m.filteredInstances.length : Int) - 1
    · rw [if_pos hc]
      simp only [sumInv]
      refine cursorInv_intro_instance _ ?_ ?_
      · rfl
      · exact invFor_inc _ _ (cursorInv_elim_instance m hstep h) hc
    · rw [if_neg hc]
      exact h
  · exact h

lemma navUpDown_inv (m : model) (s : Str) (h : cursorInv m) : sumInv (navUpDown m s) := by
  unfold navUpDown
  by_cases h1 : s = upKey
  · rw [if_pos h1]
    exact moveUp_inv m h
  · rw [if_neg h1]
    by_cases h2 : s = downKey
    · rw [if_pos h2]
      exact moveDown_inv m h
    · rw [if_neg h2]
      exact h

lemma navLetters_inv (m : model) (s : Str) (h : cursorInv m) : sumInv (navLetters m s) := by
  unfold navLetters
  by_cases hf : m.filter = []
  · rw [if_pos hf]
    by_cases h1 : s = kKey
    · rw [if_pos h1]
      exact moveUp_inv m h
    · rw [if_neg h1]
      by_cases h2 : s = jKey
      · rw [if_pos h2]
        exact moveDown_inv m h
      · rw [if_neg h2]
        exact h
  · rw [if_neg hf]
    exact h

lemma handleEnter_inv (m : model) (h : cursorInv m) : sumInv (handleEnter m) := by
  unfold handleEnter
  cases hstep : m.step <;> dsimp only
  · by_cases he : m.filteredProfiles = []
    · rw [if_pos he]
      simp only [sumInv]
      refine cursorInv_intro_profile _ ?_ ?_
      · rfl
      · exact cursorInv_elim_profile m hstep h
    · rw [if_neg he]
      simp only [sumInv]
      refine cursorInv_intro_profile _ ?_ ?_
      · rfl
      · exact cursorInv_elim_profile m hstep h
  · by_cases he : m.filteredRegions = []
    · rw [if_pos he]
      simp only [sumInv]
      refine cursorInv_intro_region _ ?_ ?_
      · rfl
      · exact cursorInv_elim_region m hstep h
    · rw [if_neg he]
      simp only [sumInv]
      refine cursorInv_intro_region _ ?_ ?_
      · rfl
      · exact cursorInv_elim_region m hstep h
  · by_cases he : m.filteredInstances = []
    · rw [if_pos he]
      simp only [sumInv]
      refine cursorInv_intro_instance _ ?_ ?_
      · rfl
      · exact cursorInv_elim_instance m hstep h
    · rw [if_neg he]
      simp only [sumInv]
      exact Or.inl rfl
  · exact h

lemma editFilter_inv (m : model) (s : Str) (h : cursorInv m) : sumInv (editFilter m s) := by
  unfold editFilter
  by_cases h1 : s = enterKey
  · rw [if_pos h1]
    exact handleEnter_inv m h
  · rw [if_neg h1]
    by_cases h2 : s = backspaceKey
    · rw [if_pos h2]
      by_cases h3 : m.filter.length > 0
      · rw [if_pos h3]
        exact h
      · rw [if_neg h3]
        exact h
    · rw [if_neg h2]
      by_cases h4 : isPrintableKey s = true
      · rw [if_pos h4]
        exact h
      · rw [if_neg h4]
        exact h

lemma refilter_inv (m : model) : sumInv (refilter m) := by
  unfold refilter
  cases hstep : m.step <;> dsimp only
  · simp only [sumInv]
    refine cursorInv_intro_profile _ ?_ ?_
    · rfl
    · exact invFor_clampCursor m.cursor _
  · simp only [sumInv]
    refine cursorInv_intro_region _ ?_ ?_
    · rfl
    · exact invFor_clampCursor m.cursor _
  · by_cases he : filterList m.instances m.filter = []
    · rw [if_pos he]
      simp only [sumInv]
      refine cursorInv_intro_instance _ ?_ ?_
      · rfl
      · exact invFor_zero _
    · rw [if_neg he]
      simp only [sumInv]
      refine cursorInv_intro_instance _ ?_ ?_
      · rfl
      · exact invFor_clampPos m.cursor _ he
  · exact Or.inl hstep

lemma andThen_inv (x : Sum (model × Option Cmd) model)
    (f : model → Sum (model × Option Cmd) model) (hx : sumInv x)
    (hf : ∀ m1, cursorInv m1 → sumInv (f m1)) : sumInv (andThen x f) := by
  cases x with
  | inl r => exact hx
  | inr m1 => exact hf m1 hx

lemma keyPipeline_inv (m : model) (s : Str) (h : cursorInv m) :
    sumInv (keyPipeline m s) := by
  unfold keyPipeline
  exact andThen_inv _ _ (andThen_inv _ _ (andThen_inv _ _ (navUpDown_inv m s h)
    (fun m1 h1 => navLetters_inv m1 s h1)) (fun m2 h2 => editFilter_inv m2 s h2))
    (fun m3 _ => refilter_inv m3)

lemma updateKey_inv (m : model) (s : Str) (h : cursorInv m) :
    cursorInv (updateKey m s).1 := by
  unfold updateKey
  by_cases h1 : s ∈ quitKeys
  · rw [if_pos h1]
    exact h
  · rw [if_neg h1]
    by_cases h2 : m.loading = true
    · rw [if_pos h2]
      exact h
    · rw [if_neg h2]
      have hp := keyPipeline_inv m s h
      cases hkp : keyPipeline m s with
      | inl r =>
        rw [hkp] at hp
        exact hp
      | inr m4 =>
        rw [hkp] at hp
        show cursorInv (finishUpdate m4).1
        rw [finishUpdate_fst]
        exact hp

lemma update_inv (m : model) (msg : Msg) (h : cursorInv m) :
    cursorInv (update m msg).1 := by
  cases msg with
  | key s =>
    exact updateKey_inv m s h
  | regionsResult rs e =>
    cases e with
    | none =>
      show cursorInv (finishUpdate _).1
      rw [finishUpdate_fst]
      exact Or.inr (invFor_zero rs)
    | some e1 =>
      exact h
  | instancesResult l e =>
    cases e with
    | none =>
      show cursorInv (finishUpdate _).1
      rw [finishUpdate_fst]
      exact Or.inr (invFor_zero l)
    | some e1 =>
      exact h
  | tagsResult tags instId e =>
    show cursorInv (finishUpdate _).1
    rw [finishUpdate_fst]
    by_cases hid : instId = m.previewInstanceId
    · rw [if_pos hid]
      exact h
    · rw [if_neg hid]
      exact h
  | tick =>
    simp only [update]
    by_cases hl : m.loading = true
    · rw [if_pos hl]
      exact h
    · rw [if_neg hl]
      rw [finishUpdate_fst]
      exact h

lemma reachable_cursorInv (m : model) (h : Reachable m) : cursorInv m := by
  induction h with
  | init ps e =>
    exact Or.inr (invFor_zero ps)
  | step m1 msg _ ih =>
    exact update_inv m1 msg ih

/-- C3: from every reachable navigator state, handling any keyboard or
async-result message yields a state in which the cursor lies in
[0, length) of the current stage's filtered list when that list is
non-empty and equals 0 when it is empty (stateDone has no current filtered
list and is exempt), as captured by cursorInv. -/
theorem cursor_invariant_after_any_message (m : model) (msg : Msg) (h : Reachable m) :
    cursorInv (update m msg).1 :=
  update_inv m msg (reachable_cursorInv m h)

/-- C3 witness: the invariant theorem applied to a concrete initial state
and a down-key message. -/
theorem cursor_invariant_after_any_message_witness :
    cursorInv (update (initialModel [['a']] none) (Msg.key downKey)).1 :=
  cursor_invariant_after_any_message (initialModel [['a']] none) (Msg.key downKey)
    (Reachable.init [['a']] none)

end Ssmssh
